import Mathlib

/-!
Verification of the Windows target-dependent debugger support
(`gdb/windows-tdep.c`): a shallow embedding of the byte-level decoding
routines (unicode-string reads, the core-dump module/exception section
scanners, the PE import-directory walker, the signal mapping and the
entry-point breakpoint re-resolution), with theorems checking the
natural-language specification against them.

Machine bytes are modelled as `Nat` values (each byte < 256 where it
matters); fallible reads return `Option`; the external collaborators
(target memory, charset conversion, the BFD section reader and
`pe_text_section_offset`) are passed in as function parameters.
-/

/-- Byte order of the target, as used by `extract_unsigned_integer`. -/
inductive BfdEndian where
  | little
  | big
deriving DecidableEq

/-- Embedding of gdb's `extract_unsigned_integer`: decode a byte list as an
unsigned integer in the given byte order. -/
def extract_unsigned_integer (order : BfdEndian) (bs : List Nat) : Nat :=
  match order with
  | .little => bs.foldr (fun b acc => acc * 256 + b % 256) 0
  | .big => bs.foldl (fun acc b => acc * 256 + b % 256) 0

/-- UTF-16 code units (little endian pairs) of a byte list, used to give the
external `convert_between_encodings` collaborator a concrete instantiation
for witnesses.  Bytes are paired `lo, hi`; a trailing odd byte is dropped. -/
def wideChars : List Nat → List Char
  | lo :: hi :: rest => Char.ofNat (lo % 256 + 256 * (hi % 256)) :: wideChars rest
  | _ => []

/-- Concrete model of `convert_between_encodings` from the UTF-16 target wide
charset to the host charset, adequate for the code points used in examples. -/
def wideToHost (bs : List Nat) : String :=
  String.mk (wideChars bs)

/-- Host string from raw (already host-encoded) bytes, as when the source
reads a `char *` out of a section buffer. -/
def bytesToHostString (bs : List Nat) : String :=
  String.mk (bs.map Char.ofNat)

/-- Numeric value of one hexadecimal digit, `none` for a non-digit. -/
def hexVal (c : Char) : Option Nat :=
  if '0' ≤ c ∧ c ≤ '9' then some (c.toNat - 48)
  else if 'a' ≤ c ∧ c ≤ 'f' then some (c.toNat - 87)
  else if 'A' ≤ c ∧ c ≤ 'F' then some (c.toNat - 55)
  else none

/-- Accumulating hexadecimal parse of a leading digit run, modelling
`sscanf (s, "%llx", &x)` on a section-name suffix (stops at the first
non-digit; yields 0 when there is no digit, where the C would leave the
output variable untouched). -/
def parseHexDigits : Nat → List Char → Nat
  | acc, [] => acc
  | acc, c :: rest =>
    match hexVal c with
    | some v => parseHexDigits (16 * acc + v) rest
    | none => acc

/-- Hexadecimal load address embedded in a section name suffix. -/
def parseHexName (s : String) : Nat :=
  parseHexDigits 0 s.data

/-- Embedding of `read_unicode_string` (windows-tdep.c): read a 2-byte
length at `addr`, then (when the length is non-zero) a pointer-width buffer
address at `addr + ptrBytes`, then `length` bytes from that buffer, and
convert them from the target wide charset to the host charset.  Any failed
read, or a zero length, yields `none`.  `readMem` models
`target_read_memory` (address, byte count); `convert` models
`convert_between_encodings`. -/
def read_unicode_string (readMem : Nat → Nat → Option (List Nat))
    (convert : List Nat → String) (order : BfdEndian)
    (addr : Nat) (ptrBytes : Nat) : Option String :=
  match readMem addr 2 with
  | none => none
  | some lenBytes =>
    let length := extract_unsigned_integer order lenBytes
    if length = 0 then none
    else
      match readMem (addr + ptrBytes) ptrBytes with
      | none => none
      | some ptrBuf =>
        let buffer := extract_unsigned_integer order ptrBuf
        match readMem buffer length with
        | none => none
        | some strBuf => some (convert strBuf)

/-- Concrete memory oracle for exercising `read_unicode_string`: a length of
4 at address 100, a buffer pointer 200 at address 104, and the UTF-16 bytes
of "hi" at address 200. -/
def c3ReadMem : Nat → Nat → Option (List Nat) :=
  fun a n =>
    if a = 100 ∧ n = 2 then some [4, 0]
    else if a = 104 ∧ n = 4 then some [200, 0, 0, 0]
    else if a = 200 ∧ n = 4 then some [104, 0, 105, 0]
    else none

/-- Claim C3: `read_unicode_string` returns `none` whenever the 2-byte
length read fails, the length is zero, the pointer-width buffer-address
read fails, or the buffer-content read fails; it returns a string only
when all three reads succeed, and that string is the conversion of exactly
`length` bytes read from the buffer address (all-or-nothing, never a
partial string). -/
theorem read_unicode_string_all_or_nothing
    (readMem : Nat → Nat → Option (List Nat)) (convert : List Nat → String)
    (order : BfdEndian) (addr ptrBytes : Nat) :
    (readMem addr 2 = none →
      read_unicode_string readMem convert order addr ptrBytes = none)
    ∧ (∀ lenBytes, readMem addr 2 = some lenBytes →
        extract_unsigned_integer order lenBytes = 0 →
        read_unicode_string readMem convert order addr ptrBytes = none)
    ∧ (∀ lenBytes, readMem addr 2 = some lenBytes →
        extract_unsigned_integer order lenBytes ≠ 0 →
        readMem (addr + ptrBytes) ptrBytes = none →
        read_unicode_string readMem convert order addr ptrBytes = none)
    ∧ (∀ lenBytes ptrBuf, readMem addr 2 = some lenBytes →
        extract_unsigned_integer order lenBytes ≠ 0 →
        readMem (addr + ptrBytes) ptrBytes = some ptrBuf →
        readMem (extract_unsigned_integer order ptrBuf)
            (extract_unsigned_integer order lenBytes) = none →
        read_unicode_string readMem convert order addr ptrBytes = none)
    ∧ (∀ lenBytes ptrBuf strBuf, readMem addr 2 = some lenBytes →
        extract_unsigned_integer order lenBytes ≠ 0 →
        readMem (addr + ptrBytes) ptrBytes = some ptrBuf →
        readMem (extract_unsigned_integer order ptrBuf)
            (extract_unsigned_integer order lenBytes) = some strBuf →
        read_unicode_string readMem convert order addr ptrBytes
          = some (convert strBuf))
    ∧ (∀ s, read_unicode_string readMem convert order addr ptrBytes = some s →
        ∃ lenBytes ptrBuf strBuf, readMem addr 2 = some lenBytes
          ∧ extract_unsigned_integer order lenBytes ≠ 0
          ∧ readMem (addr + ptrBytes) ptrBytes = some ptrBuf
          ∧ readMem (extract_unsigned_integer order ptrBuf)
              (extract_unsigned_integer order lenBytes) = some strBuf
          ∧ s = convert strBuf) := by
  refine ⟨?_, ?_, ?_, ?_, ?_, ?_⟩
  · intro h
    simp [read_unicode_string, h]
  · intro lenBytes h hz
    simp [read_unicode_string, h, hz]
  · intro lenBytes h hnz hp
    simp [read_unicode_string, h, hp, hnz]
  · intro lenBytes ptrBuf h hnz hp hb
    simp [read_unicode_string, h, hp, hb, hnz]
  · intro lenBytes ptrBuf strBuf h hnz hp hb
    simp [read_unicode_string, h, hp, hb, hnz]
  · intro s hs
    unfold read_unicode_string at hs
    obtain ⟨lenBytes, h1⟩ : ∃ lb, readMem addr 2 = some lb := by
      cases hh : readMem addr 2
      · simp [hh] at hs
      · exact ⟨_, rfl⟩
    simp only [h1] at hs
    have hz : extract_unsigned_integer order lenBytes ≠ 0 := by
      intro hz
      simp [hz] at hs
    rw [if_neg hz] at hs
    obtain ⟨ptrBuf, h2⟩ : ∃ pb, readMem (addr + ptrBytes) ptrBytes = some pb := by
      cases hh : readMem (addr + ptrBytes) ptrBytes
      · simp [hh] at hs
      · exact ⟨_, rfl⟩
    simp only [h2] at hs
    obtain ⟨strBuf, h3⟩ : ∃ sb, readMem (extract_unsigned_integer order ptrBuf)
        (extract_unsigned_integer order lenBytes) = some sb := by
      cases hh : readMem (extract_unsigned_integer order ptrBuf)
          (extract_unsigned_integer order lenBytes)
      · simp [hh] at hs
      · exact ⟨_, rfl⟩
    simp only [h3, Option.some.injEq] at hs
    exact ⟨lenBytes, ptrBuf, strBuf, h1, hz, h2, h3, hs.symm⟩

/-- Closed instance of the `read_unicode_string` all-or-nothing theorem at
the concrete oracle `c3ReadMem`: all three reads succeed, so the full
4-byte UTF-16 payload at the buffer address comes back converted. -/
theorem read_unicode_string_all_or_nothing_witness :
    read_unicode_string c3ReadMem wideToHost .little 100 4
      = some (wideToHost [104, 0, 105, 0]) :=
  (read_unicode_string_all_or_nothing c3ReadMem wideToHost .little 100 4).2.2.2.2.1
    [4, 0] [200, 0, 0, 0] [104, 0, 105, 0]
    (by decide) (by decide) (by decide) (by decide)

/-- Boolean string-prefix test, modelling `startswith` from gdbsupport. -/
def strStartsWith (s p : String) : Bool := p.data.isPrefixOf s.data

/-- A named core-dump container section together with its raw byte
contents; `none` contents model a failing `bfd_get_section_contents`. -/
structure CoreSection where
  name : String
  contents : Option (List Nat)

/-- Embedding of `windows_xfer_shared_library` as invoked by the core
module scanner (null cached text offset): the emitted library-list entry
is the module name paired with `load_addr + text_offset`, where `textOff`
models the external `pe_text_section_offset` applied to the bfd opened by
module name.  The XML rendering of the entry is presentation and is not
modelled. -/
def windows_xfer_shared_library (textOff : String → Nat) (so_name : String)
    (load_addr : Nat) : String × Nat :=
  (so_name, load_addr + textOff so_name)

/-- The documented default of `pe_text_section_offset` when the named
module file cannot be opened by the host (see the comment in
`windows_xfer_shared_library` in the source: "The default value 0x1000 is
returned by pe_text_section_offset in that case"). -/
def defaultTextOffset : String → Nat := fun _ => 0x1000

/-- Legacy Cygwin module-note type tag for 32-bit modules. -/
def NOTE_INFO_MODULE : Nat := 3

/-- Legacy Cygwin module-note type tag for 64-bit modules. -/
def NOTE_INFO_MODULE64 : Nat := 4

/-- Scanner state of `core_process_module_section` (`struct cpms_data`):
the running module count and the emitted library entries. -/
structure CpmsData where
  module_count : Nat
  out : List (String × Nat)
deriving DecidableEq

/-- Null-terminated host string starting at byte offset `off` of a section
buffer; the source appends one NUL to the buffer before reading, which is
modelled by the `++ [0]`. -/
def cStringAt (buf : List Nat) (off : Nat) : String :=
  bytesToHostString (((buf ++ [0]).drop off).takeWhile (fun b => b != 0))

/-- Embedding of `core_process_module_section`: process one dump section.
Sections matching neither naming convention, or whose contents cannot be
read, leave the state unchanged.  A `.coremodule/<hex>` section is decoded
as a wide-char module name with the load address parsed from the section
name, emitted only when the module counter is non-zero, and always counts.
A legacy `.module...` section carries a type tag, a base address, a name
size and a name; it is rejected (no emission, no count) when the section
is shorter than 4 bytes, the tag is neither `NOTE_INFO_MODULE` nor
`NOTE_INFO_MODULE64`, the section is shorter than the fixed name offset,
or name offset plus declared name size exceeds the section size. -/
def core_process_module_section (textOff : String → Nat)
    (convert : List Nat → String) (order : BfdEndian)
    (data : CpmsData) (sect : CoreSection) : CpmsData :=
  let is_module := strStartsWith sect.name ".module"
  let is_coremodule := strStartsWith sect.name ".coremodule/"
  if !is_module && !is_coremodule then data
  else
    match sect.contents with
    | none => data
    | some buf =>
      if is_coremodule then
        let data' :=
          if data.module_count ≠ 0 then
            let base_addr := parseHexName (sect.name.drop 12)
            let module_name := convert buf
            { data with
              out := data.out
                ++ [windows_xfer_shared_library textOff module_name base_addr] }
          else data
        { data' with module_count := data'.module_count + 1 }
      else
        if buf.length < 4 then data
        else
          let data_type := extract_unsigned_integer order (buf.take 4)
          if data_type = NOTE_INFO_MODULE then
            if buf.length < 12 then data
            else
              let base_addr := extract_unsigned_integer order ((buf.drop 4).take 4)
              let module_name_size :=
                extract_unsigned_integer order ((buf.drop 8).take 4)
              if 12 + module_name_size > buf.length then data
              else
                let module_name := cStringAt buf 12
                let data' :=
                  if data.module_count ≠ 0 then
                    { data with
                      out := data.out
                        ++ [windows_xfer_shared_library textOff module_name
                              base_addr] }
                  else data
                { data' with module_count := data'.module_count + 1 }
          else if data_type = NOTE_INFO_MODULE64 then
            if buf.length < 16 then data
            else
              let base_addr := extract_unsigned_integer order ((buf.drop 4).take 8)
              let module_name_size :=
                extract_unsigned_integer order ((buf.drop 12).take 4)
              if 16 + module_name_size > buf.length then data
              else
                let module_name := cStringAt buf 16
                let data' :=
                  if data.module_count ≠ 0 then
                    { data with
                      out := data.out
                        ++ [windows_xfer_shared_library textOff module_name
                              base_addr] }
                  else data
                { data' with module_count := data'.module_count + 1 }
          else data

/-- Embedding of the scan in `windows_core_xfer_shared_libraries`: fold
`core_process_module_section` over all sections in discovery order from a
zero module count and collect the emitted library entries (the XML
wrapping and the byte-range copy out of the cached text are
presentation). -/
def windows_core_xfer_shared_libraries (textOff : String → Nat)
    (convert : List Nat → String) (order : BfdEndian)
    (sections : List CoreSection) : List (String × Nat) :=
  (sections.foldl (core_process_module_section textOff convert order)
    ⟨0, []⟩).out

/-- Specification-side mirror of a successful module decode: the module
(name, load address) a section contributes, `none` when the scanner
rejects or skips the section.  Follows the spec's description of the two
naming conventions and the malformed-section rejections. -/
def decodeModuleSection (convert : List Nat → String) (order : BfdEndian)
    (sect : CoreSection) : Option (String × Nat) :=
  let is_module := strStartsWith sect.name ".module"
  let is_coremodule := strStartsWith sect.name ".coremodule/"
  if !is_module && !is_coremodule then none
  else
    match sect.contents with
    | none => none
    | some buf =>
      if is_coremodule then
        some (convert buf, parseHexName (sect.name.drop 12))
      else
        if buf.length < 4 then none
        else
          let data_type := extract_unsigned_integer order (buf.take 4)
          if data_type = NOTE_INFO_MODULE then
            if buf.length < 12 then none
            else if 12 + extract_unsigned_integer order ((buf.drop 8).take 4)
                > buf.length then none
            else some (cStringAt buf 12,
                       extract_unsigned_integer order ((buf.drop 4).take 4))
          else if data_type = NOTE_INFO_MODULE64 then
            if buf.length < 16 then none
            else if 16 + extract_unsigned_integer order ((buf.drop 12).take 4)
                > buf.length then none
            else some (cStringAt buf 16,
                       extract_unsigned_integer order ((buf.drop 4).take 8))
          else none

/-- One scanner step, characterized by the decoded module of the section:
a rejected or skipped section leaves the state unchanged; a decoded module
advances the counter and is emitted (through `windows_xfer_shared_library`)
exactly when the counter was already non-zero. -/
theorem core_process_module_section_eq (textOff : String → Nat)
    (convert : List Nat → String) (order : BfdEndian)
    (data : CpmsData) (sect : CoreSection) :
    core_process_module_section textOff convert order data sect =
      match decodeModuleSection convert order sect with
      | none => data
      | some p =>
        { module_count := data.module_count + 1
          out := data.out ++
            (if data.module_count ≠ 0
             then [windows_xfer_shared_library textOff p.1 p.2] else []) } := by
  rcases sect with ⟨name, contents⟩
  unfold core_process_module_section decodeModuleSection
  dsimp only
  by_cases h1 : (!strStartsWith name ".module" && !strStartsWith name ".coremodule/") = true
  · simp only [if_pos h1]
  · simp only [if_neg h1]
    cases contents with
    | none => rfl
    | some buf =>
      dsimp only
      by_cases h2 : strStartsWith name ".coremodule/" = true
      · simp only [if_pos h2]
        by_cases hc : data.module_count ≠ 0 <;> simp [hc]
      · simp only [if_neg h2]
        by_cases h3 : buf.length < 4
        · simp only [if_pos h3]
        · simp only [if_neg h3]
          by_cases h4 : extract_unsigned_integer order (buf.take 4) = NOTE_INFO_MODULE
          · simp only [if_pos h4]
            by_cases h5 : buf.length < 12
            · simp only [if_pos h5]
            · simp only [if_neg h5]
              by_cases h6 : 12 + extract_unsigned_integer order ((buf.drop 8).take 4) > buf.length
              · simp only [if_pos h6]
              · simp only [if_neg h6]
                by_cases hc : data.module_count ≠ 0 <;> simp [hc]
          · simp only [if_neg h4]
            by_cases h7 : extract_unsigned_integer order (buf.take 4) = NOTE_INFO_MODULE64
            · simp only [if_pos h7]
              by_cases h8 : buf.length < 16
              · simp only [if_pos h8]
              · simp only [if_neg h8]
                by_cases h9 : 16 + extract_unsigned_integer order ((buf.drop 12).take 4) > buf.length
                · simp only [if_pos h9]
                · simp only [if_neg h9]
                  by_cases hc : data.module_count ≠ 0 <;> simp [hc]
            · simp only [if_neg h7]

/-- Library entries contributed by a decoded module list when the counter
starts at `c`: the first decoded module is suppressed exactly when the
scan starts from a zero count. -/
def emittedFrom (textOff : String → Nat) (c : Nat)
    (mods : List (String × Nat)) : List (String × Nat) :=
  (if c = 0 then mods.drop 1 else mods).map
    (fun p => windows_xfer_shared_library textOff p.1 p.2)

/-- The whole scan, characterized by the decoded modules of the visited
sections: the counter advances once per decoded module and the emitted
entries are `emittedFrom` of the decoded list. -/
theorem cpms_foldl_eq (textOff : String → Nat) (convert : List Nat → String)
    (order : BfdEndian) :
    ∀ (sections : List CoreSection) (data : CpmsData),
      sections.foldl (core_process_module_section textOff convert order) data
        = { module_count := data.module_count
              + (sections.filterMap (decodeModuleSection convert order)).length
            out := data.out ++ emittedFrom textOff data.module_count
              (sections.filterMap (decodeModuleSection convert order)) } := by
  intro sections
  induction sections with
  | nil => intro data; simp [emittedFrom]
  | cons s rest ih =>
    intro data
    rw [List.foldl_cons, core_process_module_section_eq]
    cases hd : decodeModuleSection convert order s with
    | none =>
      simp only [List.filterMap_cons, hd]
      exact ih data
    | some p =>
      simp only [List.filterMap_cons, hd]
      rw [ih]
      by_cases hc : data.module_count = 0
      · simp [emittedFrom, hc, Nat.add_comm, Nat.add_assoc, Nat.add_left_comm]
      · simp [emittedFrom, hc, Nat.add_comm, Nat.add_assoc, Nat.add_left_comm]

/-- UTF-16 little-endian bytes of "app.exe", the first scenario section's
payload. -/
def appExeUtf16 : List Nat :=
  [97, 0, 112, 0, 112, 0, 46, 0, 101, 0, 120, 0, 101, 0]

/-- UTF-16 little-endian bytes of "lib.dll", the second scenario section's
payload. -/
def libDllUtf16 : List Nat :=
  [108, 0, 105, 0, 98, 0, 46, 0, 100, 0, 108, 0, 108, 0]

/-- The two-section dump of the spec's scenario: `.coremodule/1000`
holding "app.exe" and `.coremodule/2000` holding "lib.dll". -/
def c1ScenarioSections : List CoreSection :=
  [⟨".coremodule/1000", some appExeUtf16⟩,
   ⟨".coremodule/2000", some libDllUtf16⟩]

/-- Counterexample to claim C1 as stated: with the documented default
text-section offset (0x1000, returned by `pe_text_section_offset` for a
module whose file cannot be opened), the scenario dump yields lib.dll with
segment address 0x3000, not the claimed 0x2000 — the emitted segment
address is the load address plus the per-module text-section offset, not
the bare load address. -/
theorem windows_core_xfer_shared_libraries_scenario_counterexample :
    windows_core_xfer_shared_libraries defaultTextOffset wideToHost .little
        c1ScenarioSections = [("lib.dll", 0x3000)]
    ∧ windows_core_xfer_shared_libraries defaultTextOffset wideToHost .little
        c1ScenarioSections ≠ [("lib.dll", 0x2000)] := by
  constructor
  · decide
  · decide

/-- Claim C1 (amended): for every dump, the first decoded module (by either
naming convention) is absent from the emitted library list, and every
subsequent successfully decoded module appears in discovery order with its
exact name and with segment address equal to its load address plus the
text-section offset resolved for its name (0x1000 by default when the
module's file cannot be opened); in particular the scenario dump yields a
list containing only lib.dll, at 0x2000 + 0x1000 = 0x3000 under the
default offset. -/
theorem windows_core_xfer_shared_libraries_enumeration
    (textOff : String → Nat) (convert : List Nat → String)
    (order : BfdEndian) (sections : List CoreSection) :
    windows_core_xfer_shared_libraries textOff convert order sections
      = ((sections.filterMap (decodeModuleSection convert order)).drop 1).map
          (fun p => (p.1, p.2 + textOff p.1))
    ∧ windows_core_xfer_shared_libraries defaultTextOffset wideToHost .little
        c1ScenarioSections = [("lib.dll", 0x2000 + 0x1000)] := by
  constructor
  · unfold windows_core_xfer_shared_libraries
    rw [cpms_foldl_eq]
    simp [emittedFrom, windows_xfer_shared_library]
  · decide

/-- A malformed legacy module section: the type tag claims
`NOTE_INFO_MODULE` but the section is shorter than the 12-byte header. -/
def c10BadModule : CoreSection := ⟨".module/bad", some [3, 0, 0, 0]⟩

/-- A valid legacy 32-bit module note: tag 3, base address 0x3000, name
size 5, name "a.dll". -/
def c10ModuleA : CoreSection :=
  ⟨".module/a",
   some [3, 0, 0, 0, 0, 48, 0, 0, 5, 0, 0, 0, 97, 46, 100, 108, 108]⟩

/-- A valid legacy 64-bit module note: tag 4, base address 0x4000, name
size 5, name "b.dll". -/
def c10ModuleB : CoreSection :=
  ⟨".module/b",
   some [4, 0, 0, 0, 0, 64, 0, 0, 0, 0, 0, 0, 5, 0, 0, 0,
         98, 46, 100, 108, 108]⟩

/-- Claim C10: a legacy `.module` section rejected as malformed (shorter
than 4 bytes, unknown type tag, shorter than the fixed name offset, or
declared name size overrunning the section) leaves the scanner state —
including the module counter — unchanged; consequently, when the
first-discovered module section is rejected, the first-module suppression
falls on the next successfully decoded module, as in the concrete
three-section scan: the malformed first section decodes to nothing, the
first valid module a.dll is suppressed, and only b.dll is emitted. -/
theorem core_process_module_section_malformed_unchanged
    (textOff : String → Nat) (convert : List Nat → String)
    (order : BfdEndian) (data : CpmsData) (name : String) (buf : List Nat)
    (hm : strStartsWith name ".module" = true)
    (hcm : strStartsWith name ".coremodule/" = false)
    (hrej : buf.length < 4
      ∨ (extract_unsigned_integer order (buf.take 4) ≠ NOTE_INFO_MODULE
          ∧ extract_unsigned_integer order (buf.take 4) ≠ NOTE_INFO_MODULE64)
      ∨ (extract_unsigned_integer order (buf.take 4) = NOTE_INFO_MODULE
          ∧ (buf.length < 12
             ∨ 12 + extract_unsigned_integer order ((buf.drop 8).take 4)
                 > buf.length))
      ∨ (extract_unsigned_integer order (buf.take 4) = NOTE_INFO_MODULE64
          ∧ (buf.length < 16
             ∨ 16 + extract_unsigned_integer order ((buf.drop 12).take 4)
                 > buf.length))) :
    core_process_module_section textOff convert order data ⟨name, some buf⟩
        = data
    ∧ (core_process_module_section textOff convert order data
        ⟨name, some buf⟩).module_count = data.module_count
    ∧ windows_core_xfer_shared_libraries defaultTextOffset wideToHost .little
        [c10BadModule, c10ModuleA, c10ModuleB]
        = [("b.dll", 0x4000 + 0x1000)] := by
  have hstep : core_process_module_section textOff convert order data
      ⟨name, some buf⟩ = data := by
    unfold core_process_module_section
    simp only [hm, hcm, Bool.not_true, Bool.not_false, Bool.false_and,
      Bool.and_false, Bool.and_true, if_false, if_true]
    rcases hrej with h | ⟨h1, h2⟩ | ⟨h1, h2⟩ | ⟨h1, h2⟩
    · simp [h]
    · by_cases hlen : buf.length < 4
      · simp [hlen]
      · simp [hlen, h1, h2]
    · by_cases hlen : buf.length < 4
      · simp [hlen]
      · by_cases h12 : buf.length < 12
        · simp [hlen, h1, h12, NOTE_INFO_MODULE]
        · have hov : 12 + extract_unsigned_integer order ((buf.drop 8).take 4)
              > buf.length := by
            rcases h2 with h2 | h2
            · omega
            · exact h2
          simp [hlen, h1, h12, hov, NOTE_INFO_MODULE]
    · by_cases hlen : buf.length < 4
      · simp [hlen]
      · have hne : extract_unsigned_integer order (buf.take 4)
            ≠ NOTE_INFO_MODULE := by
          simp [h1, NOTE_INFO_MODULE, NOTE_INFO_MODULE64]
        by_cases h16 : buf.length < 16
        · simp [hlen, h1, hne, h16, NOTE_INFO_MODULE, NOTE_INFO_MODULE64]
        · have hov : 16 + extract_unsigned_integer order ((buf.drop 12).take 4)
              > buf.length := by
            rcases h2 with h2 | h2
            · omega
            · exact h2
          simp [hlen, h1, hne, h16, hov, NOTE_INFO_MODULE, NOTE_INFO_MODULE64]
  refine ⟨hstep, by rw [hstep], by decide⟩

/-- Closed instance of the malformed-section theorem: the concrete
malformed section (tag 3 but only 4 bytes long) leaves the initial scanner
state untouched, and the three-section scan emits only b.dll. -/
theorem core_process_module_section_malformed_unchanged_witness :
    core_process_module_section defaultTextOffset wideToHost .little
        ⟨0, []⟩ ⟨".module/bad", some [3, 0, 0, 0]⟩ = ⟨0, []⟩
    ∧ (core_process_module_section defaultTextOffset wideToHost .little
        ⟨0, []⟩ ⟨".module/bad", some [3, 0, 0, 0]⟩).module_count
        = (⟨0, []⟩ : CpmsData).module_count
    ∧ windows_core_xfer_shared_libraries defaultTextOffset wideToHost .little
        [c10BadModule, c10ModuleA, c10ModuleB]
        = [("b.dll", 0x4000 + 0x1000)] :=
  core_process_module_section_malformed_unchanged defaultTextOffset wideToHost
    .little ⟨0, []⟩ ".module/bad" [3, 0, 0, 0]
    (by decide) (by decide) (by decide)

/-- Size of the logical 32-bit exception record (`EXC_SIZE_32`). -/
def EXC_SIZE_32 : Nat := 80

/-- Size of the stored 64-bit exception record (`EXC_SIZE_64`). -/
def EXC_SIZE_64 : Nat := 152

/-- One iteration of the down-conversion loop `rec[r + 1] = rec[r * 2]`,
acting on the record viewed as a byte function: the 4-byte word `r + 1`
is overwritten with the current 4-byte word `r * 2`. -/
def siginfoStep (f : Nat → Nat) (r : Nat) : Nat → Nat :=
  fun i => if i / 4 = r + 1 then f (4 * (r * 2) + i % 4) else f i

/-- The loop `for (r = 2; r < 19; r++) rec[r + 1] = rec[r * 2]` of
`windows_core_xfer_siginfo`, run sequentially on the bytes of the stored
64-bit record. -/
def siginfoDownconvert (b : List Nat) : Nat → Nat :=
  (List.range' 2 17).foldl siginfoStep (fun i => b.getD i 0)

/-- Embedding of the 32-bit path of `windows_core_xfer_siginfo`: `sect` is
the `.coreexception` section's contents (`none` when the section is
absent), `readOk` models `bfd_get_section_contents` succeeding, and the
result is the byte range delivered to the caller (`none` models the -1
failure return).  The request fails when the offset exceeds the 32-bit
record size or the stored section is not exactly the 64-bit record size;
otherwise the length is clamped to the 32-bit record and the bytes come
from the down-converted record. -/
def windows_core_xfer_siginfo_32 (sect : Option (List Nat)) (readOk : Bool)
    (offset len : Nat) : Option (List Nat) :=
  match sect with
  | none => none
  | some b =>
    if offset > EXC_SIZE_32 then none
    else if b.length ≠ EXC_SIZE_64 then none
    else if !readOk then none
    else
      let len' := if len > EXC_SIZE_32 - offset then EXC_SIZE_32 - offset
                  else len
      some ((List.range len').map (fun j => siginfoDownconvert b (offset + j)))

/-- Characterization of the sequential down-conversion loop over words
`s, s + 1, ..., s + m - 1`: word `w` of the result is word `2 w - 2` of
the original record for `s + 1 ≤ w ≤ s + m`, and is unchanged otherwise.
Each step reads a word strictly beyond every word written so far, so the
sequential loop computes this map of the original bytes. -/
theorem siginfo_fold_char :
    ∀ (m s : Nat) (f0 : Nat → Nat), 1 ≤ s → ∀ i,
      (List.range' s m).foldl siginfoStep f0 i
        = if s + 1 ≤ i / 4 ∧ i / 4 ≤ s + m
          then f0 (8 * (i / 4 - 1) + i % 4) else f0 i := by
  intro m
  induction m with
  | zero =>
    intro s f0 hs i
    rw [List.range'_zero, List.foldl_nil, if_neg (by omega)]
  | succ m ih =>
    intro s f0 hs i
    rw [List.range'_succ, List.foldl_cons,
      ih (s + 1) (siginfoStep f0 s) (by omega) i]
    simp only [siginfoStep]
    by_cases hA : s + 1 + 1 ≤ i / 4 ∧ i / 4 ≤ s + 1 + m
    · rw [if_pos hA, if_pos (by omega : s + 1 ≤ i / 4 ∧ i / 4 ≤ s + (m + 1))]
      have hj : (8 * (i / 4 - 1) + i % 4) / 4 = 2 * (i / 4 - 1) := by omega
      rw [if_neg (by rw [hj]; omega)]
    · rw [if_neg hA]
      by_cases hB : i / 4 = s + 1
      · rw [if_pos hB, if_pos (by omega : s + 1 ≤ i / 4 ∧ i / 4 ≤ s + (m + 1))]
        congr 1
        omega
      · rw [if_neg hB, if_neg (by omega)]

/-- The down-converted record byte at `i`: for output words 3..19 it is
the first byte-in-word of original word `2 (i / 4) - 2`; words 0..2 are
unchanged. -/
theorem siginfoDownconvert_eq (b : List Nat) (i : Nat) :
    siginfoDownconvert b i
      = if 3 ≤ i / 4 ∧ i / 4 ≤ 19 then b.getD (8 * (i / 4 - 1) + i % 4) 0
        else b.getD i 0 := by
  unfold siginfoDownconvert
  rw [siginfo_fold_char 17 2 _ (by omega) i]

/-- Claim C2: on a 32-bit target the exception-record read fails for any
offset greater than 80 bytes; it fails unless the stored `.coreexception`
section is exactly 152 bytes (the 64-bit record size); and on success each
returned byte that falls in the first-17-slot region after code and flags
(bytes 8..75 of the 32-bit view) is the corresponding byte of the low 32
bits of the stored 64-bit record's 8-byte-stride slot. -/
theorem windows_core_xfer_siginfo_32_spec (b : List Nat) (offset len : Nat) :
    (offset > 80 → ∀ r,
      windows_core_xfer_siginfo_32 (some b) r offset len = none)
    ∧ (b.length ≠ 152 → ∀ r,
        windows_core_xfer_siginfo_32 (some b) r offset len = none)
    ∧ (∀ out, windows_core_xfer_siginfo_32 (some b) true offset len = some out →
        ∀ p, p < out.length → 8 ≤ offset + p → offset + p < 76 →
          out.getD p 0
            = b.getD (8 + 8 * ((offset + p - 8) / 4) + (offset + p - 8) % 4) 0) := by
  refine ⟨?_, ?_, ?_⟩
  · intro h r
    simp [windows_core_xfer_siginfo_32, EXC_SIZE_32, h]
  · intro h r
    simp [windows_core_xfer_siginfo_32, EXC_SIZE_32, EXC_SIZE_64, h]
  · intro out hout p hp h8 h76
    simp only [windows_core_xfer_siginfo_32] at hout
    by_cases ho : offset > EXC_SIZE_32
    · rw [if_pos ho] at hout
      cases hout
    · rw [if_neg ho] at hout
      by_cases hl : b.length ≠ EXC_SIZE_64
      · rw [if_pos hl] at hout
        cases hout
      · rw [if_neg hl] at hout
        simp only [Bool.not_true, Bool.false_eq_true, if_false,
          Option.some.injEq] at hout
        subst hout
        rw [List.getD_eq_getElem _ _ hp, List.getElem_map, List.getElem_range,
          siginfoDownconvert_eq]
        by_cases hq : 3 ≤ (offset + p) / 4
        · rw [if_pos ⟨hq, by omega⟩]
          congr 1
          omega
        · rw [if_neg (by omega)]
          congr 1
          omega

/-- A synthetic stored 64-bit exception record: 152 bytes, each byte equal
to its own offset, so every slot has a known value. -/
def c2Record : List Nat := List.range 152

/-- The full 80-byte 32-bit view of `c2Record` as delivered by a read at
offset 0 of length 80. -/
def c2Out : List Nat :=
  (List.range 80).map (fun j => siginfoDownconvert c2Record (0 + j))

set_option maxRecDepth 40000 in
/-- Closed instance of the exception-record down-conversion theorem at the
synthetic record: byte 20 of the 32-bit view (the first parameter slot) is
byte 32 of the stored record (the low byte of stored slot 3), and a read
at offset 81 fails. -/
theorem windows_core_xfer_siginfo_32_spec_witness :
    c2Out.getD 20 0 = c2Record.getD 32 0
    ∧ windows_core_xfer_siginfo_32 (some c2Record) true 81 4 = none := by
  constructor
  · have h := (windows_core_xfer_siginfo_32_spec c2Record 0 80).2.2 c2Out
      (by rfl) 20 (by decide) (by decide) (by decide)
    simpa using h
  · exact (windows_core_xfer_siginfo_32_spec c2Record 81 4).1 (by decide) true

/-- The request kinds of `info proc` relevant to the Windows
implementation (`enum info_proc_what`); `other` stands for the remaining
members of the external enum, which request none of the three fields. -/
inductive IpWhat where
  | minimal
  | cmdline
  | cwd
  | exe
  | all
  | other
deriving DecidableEq

/-- User-facing errors thrown by `windows_info_proc` through `error ()`:
"Only supported for the current process" and "No current process". -/
inductive WinErr where
  | argumentsNotSupported
  | noCurrentProcess
deriving DecidableEq

/-- Output of `windows_info_proc`: a printed `field = 'value'` line or a
per-field "unable to read" warning. -/
inductive OutItem where
  | printed (field : String) (val : String)
  | warned (field : String)
deriving DecidableEq

/-- `want_cmd` of `windows_info_proc`. -/
def want_cmd : IpWhat → Bool
  | .minimal | .cmdline | .all => true
  | _ => false

/-- `want_cwd` of `windows_info_proc`. -/
def want_cwd : IpWhat → Bool
  | .minimal | .cwd | .all => true
  | _ => false

/-- `want_exe` of `windows_info_proc`. -/
def want_exe : IpWhat → Bool
  | .minimal | .exe | .all => true
  | _ => false

/-- The target-side environment of `windows_info_proc`: the memory oracle,
charset conversion, byte order, the `target_has_execution ()` and
`core_bfd != nullptr` predicates, the `target_get_tib_address` result and
the architecture pointer width in bits. -/
structure InfoProcTarget where
  readMem : Nat → Nat → Option (List Nat)
  convert : List Nat → String
  order : BfdEndian
  hasExecution : Bool
  corePresent : Bool
  tibAddr : Option Nat
  ptrBit : Nat

/-- Pointer size in bytes selected by `windows_info_proc`. -/
def ipPtrBytes (ptrBit : Nat) : Nat := if ptrBit = 32 then 4 else 8

/-- Offset of `process_environment_block` in the TIB. -/
def ipPebOffset (ptrBit : Nat) : Nat := if ptrBit = 32 then 48 else 96

/-- Offset of `process_parameters` in the PEB. -/
def ipPpOffset (ptrBit : Nat) : Nat := if ptrBit = 32 then 16 else 32

/-- Offset of `command_line` in `rtl_user_process_parameters`. -/
def ipCmdOffset (ptrBit : Nat) : Nat := if ptrBit = 32 then 64 else 112

/-- Offset of `current_directory` in `rtl_user_process_parameters`. -/
def ipCwdOffset (ptrBit : Nat) : Nat := if ptrBit = 32 then 36 else 56

/-- Offset of `image_path_name` in `rtl_user_process_parameters`. -/
def ipExeOffset (ptrBit : Nat) : Nat := if ptrBit = 32 then 56 else 96

/-- The TIB→PEB→process-parameters resolution of `windows_info_proc`: the
address of the `rtl_user_process_parameters` block, `none` when the TIB
address is unavailable or either pointer read fails. -/
def resolve_pp (t : InfoProcTarget) : Option Nat :=
  match t.tibAddr with
  | none => none
  | some tlb =>
    match t.readMem (tlb + ipPebOffset t.ptrBit) (ipPtrBytes t.ptrBit) with
    | none => none
    | some pebBytes =>
      let peb := extract_unsigned_integer t.order pebBytes
      match t.readMem (peb + ipPpOffset t.ptrBit) (ipPtrBytes t.ptrBit) with
      | none => none
      | some ppBytes => some (extract_unsigned_integer t.order ppBytes)

/-- One field's full resolution: the process-parameters address plus the
field offset, read as a counted unicode string. -/
def ipFieldRead (t : InfoProcTarget) (off : Nat) : Option String :=
  match resolve_pp t with
  | none => none
  | some pp =>
    read_unicode_string t.readMem t.convert t.order (pp + off)
      (ipPtrBytes t.ptrBit)

/-- Rendering of one requested field: its printed line when the string was
read, its own warning otherwise, nothing when the field was not
requested. -/
def renderField (field : String) (want : Bool) (v : Option String) :
    List OutItem :=
  if want then
    match v with
    | some s => [.printed field s]
    | none => [.warned field]
  else []

/-- Embedding of `windows_info_proc`: the argument and current-process
precondition checks in source order, then each requested field resolved
through TIB→PEB→process-parameters and printed, with a per-field warning
when unreadable.  The source guards the shared chain reads by
`want_cmd || want_cwd || want_exe` and reuses one resolved address; the
memory oracle is pure, so performing the identical reads per requested
field yields the same strings. -/
def windows_info_proc (t : InfoProcTarget) (args : String) (what : IpWhat) :
    Except WinErr (List OutItem) :=
  if args ≠ "" then .error .argumentsNotSupported
  else if !t.hasExecution && !t.corePresent then .error .noCurrentProcess
  else
    let cmd_str := if want_cmd what then ipFieldRead t (ipCmdOffset t.ptrBit)
                   else none
    let cwd_str := if want_cwd what then ipFieldRead t (ipCwdOffset t.ptrBit)
                   else none
    let exe_str := if want_exe what then ipFieldRead t (ipExeOffset t.ptrBit)
                   else none
    .ok (renderField "cmdline" (want_cmd what) cmd_str
      ++ renderField "cwd" (want_cwd what) cwd_str
      ++ renderField "exe" (want_exe what) exe_str)

/-- A target with no process, no dump and no readable memory. -/
def c6Target : InfoProcTarget :=
  ⟨fun _ _ => none, wideToHost, .little, false, false, none, 32⟩

/-- Claim C6: `windows_info_proc` fails with the unsupported-argument
error whenever a non-empty target-selector argument is supplied
(regardless of the requested fields), fails with the no-current-process
error when no executing process and no dump is attached (and no argument
was given, the argument check coming first in the source), and in either
failure produces no field output. -/
theorem windows_info_proc_preconditions (t : InfoProcTarget) (args : String)
    (what : IpWhat) :
    (args ≠ "" → windows_info_proc t args what
      = .error .argumentsNotSupported)
    ∧ (args = "" → t.hasExecution = false → t.corePresent = false →
        windows_info_proc t args what = .error .noCurrentProcess)
    ∧ (∀ e, windows_info_proc t args what = .error e →
        ∀ out, windows_info_proc t args what ≠ .ok out) := by
  refine ⟨?_, ?_, ?_⟩
  · intro h
    simp [windows_info_proc, h]
  · intro h he hc
    simp [windows_info_proc, h, he, hc]
  · intro e he out hout
    rw [he] at hout
    cases hout

/-- Closed instance of the precondition theorem: on a target with no
process and no dump, a non-empty argument reports the unsupported-argument
error and an empty argument reports the no-current-process error. -/
theorem windows_info_proc_preconditions_witness :
    windows_info_proc c6Target "all" IpWhat.all
      = .error .argumentsNotSupported
    ∧ windows_info_proc c6Target "" IpWhat.all
      = .error .noCurrentProcess :=
  ⟨(windows_info_proc_preconditions c6Target "all" IpWhat.all).1 (by decide),
   (windows_info_proc_preconditions c6Target "" IpWhat.all).2.1
     (by decide) (by decide) (by decide)⟩

/-- Claim C7: once the precondition checks pass, each requested field's
outcome depends only on that field's own TIB→PEB→process-parameters read:
a readable requested field is printed with its value and an unreadable one
yields its own warning, and the whole output is the concatenation of the
three per-field renderings, so a failure in one field leaves the other
requested fields unaffected. -/
theorem windows_info_proc_per_field (t : InfoProcTarget) (what : IpWhat)
    (out : List OutItem)
    (hok : windows_info_proc t "" what = .ok out) :
    (want_cmd what = true →
      (∀ s, ipFieldRead t (ipCmdOffset t.ptrBit) = some s →
        OutItem.printed "cmdline" s ∈ out)
      ∧ (ipFieldRead t (ipCmdOffset t.ptrBit) = none →
        OutItem.warned "cmdline" ∈ out))
    ∧ (want_cwd what = true →
      (∀ s, ipFieldRead t (ipCwdOffset t.ptrBit) = some s →
        OutItem.printed "cwd" s ∈ out)
      ∧ (ipFieldRead t (ipCwdOffset t.ptrBit) = none →
        OutItem.warned "cwd" ∈ out))
    ∧ (want_exe what = true →
      (∀ s, ipFieldRead t (ipExeOffset t.ptrBit) = some s →
        OutItem.printed "exe" s ∈ out)
      ∧ (ipFieldRead t (ipExeOffset t.ptrBit) = none →
        OutItem.warned "exe" ∈ out))
    ∧ out = renderField "cmdline" (want_cmd what)
          (if want_cmd what then ipFieldRead t (ipCmdOffset t.ptrBit)
           else none)
        ++ renderField "cwd" (want_cwd what)
          (if want_cwd what then ipFieldRead t (ipCwdOffset t.ptrBit)
           else none)
        ++ renderField "exe" (want_exe what)
          (if want_exe what then ipFieldRead t (ipExeOffset t.ptrBit)
           else none) := by
  unfold windows_info_proc at hok
  rw [if_neg (by simp)] at hok
  by_cases hp : (!t.hasExecution && !t.corePresent) = true
  · rw [if_pos hp] at hok
    cases hok
  · rw [if_neg hp] at hok
    simp only [Except.ok.injEq] at hok
    subst hok
    refine ⟨?_, ?_, ?_, rfl⟩
    · intro hw
      constructor
      · intro s hs
        simp [renderField, hw, hs]
      · intro hs
        simp [renderField, hw, hs]
    · intro hw
      constructor
      · intro s hs
        simp [renderField, hw, hs]
      · intro hs
        simp [renderField, hw, hs]
    · intro hw
      constructor
      · intro s hs
        simp [renderField, hw, hs]
      · intro hs
        simp [renderField, hw, hs]

/-- Memory oracle for the per-field independence witness: the TIB→PEB→
process-parameters chain resolves (TIB 1000, PEB 0x400, parameters 0x800);
the cwd field at 0x800+36 reads a 2-character string "x" from buffer 3000,
while the cmdline and exe fields are unreadable. -/
def c7ReadMem : Nat → Nat → Option (List Nat) :=
  fun a n =>
    if a = 1048 ∧ n = 4 then some [0, 4, 0, 0]
    else if a = 1040 ∧ n = 4 then some [0, 8, 0, 0]
    else if a = 2084 ∧ n = 2 then some [2, 0]
    else if a = 2088 ∧ n = 4 then some [184, 11, 0, 0]
    else if a = 3000 ∧ n = 2 then some [120, 0]
    else none

/-- A running 32-bit target with the `c7ReadMem` memory. -/
def c7Target : InfoProcTarget :=
  ⟨c7ReadMem, wideToHost, .little, true, false, some 1000, 32⟩

/-- Closed instance of the per-field theorem: in one `info proc all` query
on `c7Target`, the unreadable cmdline yields its own warning while the
readable cwd is still printed — one field's failure does not abort the
others. -/
theorem windows_info_proc_per_field_witness :
    OutItem.warned "cmdline"
      ∈ [OutItem.warned "cmdline",
         OutItem.printed "cwd" (wideToHost [120, 0]),
         OutItem.warned "exe"]
    ∧ OutItem.printed "cwd" (wideToHost [120, 0])
      ∈ [OutItem.warned "cmdline",
         OutItem.printed "cwd" (wideToHost [120, 0]),
         OutItem.warned "exe"] := by
  have h := windows_info_proc_per_field c7Target IpWhat.all
    [OutItem.warned "cmdline",
     OutItem.printed "cwd" (wideToHost [120, 0]),
     OutItem.warned "exe"] (by rfl)
  exact ⟨(h.1 rfl).2 (by decide),
         (h.2.1 rfl).1 (wideToHost [120, 0]) (by decide)⟩

/-- One breakpoint location: its program space and its address
(`bp_location::pspace`, `bp_location::address`). -/
structure BpLoc where
  pspace : Nat
  address : Nat
deriving DecidableEq

/-- Model of the external `update_breakpoint_locations (this,
current_program_space, sals, {})` collaborator as invoked by
`entry_point_breakpoint::re_set` with the single address-location sal
produced by `decode_location_spec`: locations of the filtered program
space are replaced by the one new location at the entry point and
locations of other program spaces are kept. -/
def update_breakpoint_locations (current : Nat) (entry : Nat)
    (locs : List BpLoc) : List BpLoc :=
  locs.filter (fun l => l.pspace != current) ++ [⟨current, entry⟩]

/-- Embedding of `entry_point_breakpoint::re_set`: when some existing
location in the current program space already sits at the recomputed
entry point nothing happens, otherwise the locations are updated to the
entry point.  The second component counts the relocations performed. -/
def entry_point_breakpoint_re_set (entry current : Nat)
    (locs : List BpLoc) : List BpLoc × Nat :=
  if locs.any (fun l => l.pspace == current && l.address == entry)
  then (locs, 0)
  else (update_breakpoint_locations current entry locs, 1)

/-- Claim C8: the entry-point breakpoint's location re-resolution is
idempotent on the entry address: when the recomputed entry point equals
the address of an existing location in the current program space, no
location changes and no relocation occurs; when it differs, exactly one
relocation occurs and it places a location at the entry point, so an
immediate second re-resolution changes nothing. -/
theorem entry_point_breakpoint_re_set_idempotent (entry current : Nat)
    (locs : List BpLoc) :
    ((∃ l ∈ locs, l.pspace = current ∧ l.address = entry) →
      entry_point_breakpoint_re_set entry current locs = (locs, 0))
    ∧ ((¬ ∃ l ∈ locs, l.pspace = current ∧ l.address = entry) →
      (entry_point_breakpoint_re_set entry current locs).2 = 1
      ∧ BpLoc.mk current entry
          ∈ (entry_point_breakpoint_re_set entry current locs).1)
    ∧ (entry_point_breakpoint_re_set entry current
        (entry_point_breakpoint_re_set entry current locs).1).2 = 0
    ∧ (entry_point_breakpoint_re_set entry current
        (entry_point_breakpoint_re_set entry current locs).1).1
      = (entry_point_breakpoint_re_set entry current locs).1 := by
  by_cases hc : locs.any
      (fun l => l.pspace == current && l.address == entry) = true
  · refine ⟨?_, ?_, ?_, ?_⟩
    · intro _
      simp [entry_point_breakpoint_re_set, hc]
    · intro hne
      exfalso
      apply hne
      simpa [List.any_eq_true, Bool.and_eq_true, beq_iff_eq, and_assoc]
        using hc
    · simp [entry_point_breakpoint_re_set, hc]
    · simp [entry_point_breakpoint_re_set, hc]
  · have hupd : (update_breakpoint_locations current entry locs).any
        (fun l => l.pspace == current && l.address == entry) = true := by
      simp only [update_breakpoint_locations, List.any_append,
        List.any_cons, List.any_nil]
      simp
    refine ⟨?_, ?_, ?_, ?_⟩
    · intro hex
      exfalso
      apply hc
      simp only [List.any_eq_true, Bool.and_eq_true, beq_iff_eq]
      obtain ⟨l, hl, h1, h2⟩ := hex
      exact ⟨l, hl, h1, h2⟩
    · intro _
      constructor
      · simp [entry_point_breakpoint_re_set, hc]
      · simp [entry_point_breakpoint_re_set, hc,
          update_breakpoint_locations]
    · simp [entry_point_breakpoint_re_set, hc, hupd]
    · simp [entry_point_breakpoint_re_set, hc, hupd]

/-- Closed instance of the re-resolution theorem: with one location at
(pspace 1, address 5), re-resolving to entry 5 changes nothing, and
re-resolving to entry 7 performs one relocation placing a location at 7. -/
theorem entry_point_breakpoint_re_set_idempotent_witness :
    entry_point_breakpoint_re_set 5 1 [⟨1, 5⟩] = ([⟨1, 5⟩], 0)
    ∧ (entry_point_breakpoint_re_set 7 1 [⟨1, 5⟩]).2 = 1
    ∧ BpLoc.mk 1 7 ∈ (entry_point_breakpoint_re_set 7 1 [⟨1, 5⟩]).1 :=
  ⟨(entry_point_breakpoint_re_set_idempotent 5 1 [⟨1, 5⟩]).1
      ⟨⟨1, 5⟩, by decide, rfl, rfl⟩,
   (entry_point_breakpoint_re_set_idempotent 7 1 [⟨1, 5⟩]).2.1 (by decide)⟩

/-- The gdb signal values produced by `windows_gdb_signal_from_target`. -/
inductive GdbSignal where
  | sig0
  | sigsegv
  | sigfpe
  | sigtrap
  | sigint
  | sigill
  | sigabrt
  | unknown
deriving DecidableEq

/-- Embedding of `windows_gdb_signal_from_target`: the C `int` argument is
converted to `unsigned int` (reduction modulo 2^32) and dispatched over
the switch's case constants exactly as written in the source — note that
the exception-code cases are written with seven hexadecimal digits. -/
def windows_gdb_signal_from_target (signal : Int) : GdbSignal :=
  let usignal := (signal % 4294967296).toNat
  if usignal = 0 then .sig0
  else if usignal = 0xC000005 ∨ usignal = 0xC0000FD then .sigsegv
  else if usignal = 0xC00008C ∨ usignal = 0xC00008D ∨ usignal = 0xC00008E
      ∨ usignal = 0xC00008F ∨ usignal = 0xC000090 ∨ usignal = 0xC000091
      ∨ usignal = 0xC000092 ∨ usignal = 0xC000093 ∨ usignal = 0xC000094
      ∨ usignal = 0xC000095 then .sigfpe
  else if usignal = 0x8000003 ∨ usignal = 0x8000004 then .sigtrap
  else if usignal = 0x4010005 ∨ usignal = 0x4010008 then .sigint
  else if usignal = 0xC00001D ∨ usignal = 0xC000096 ∨ usignal = 0xC000025
      then .sigill
  else if usignal = 0x4000015 then .sigabrt
  else .unknown

/-- The file's own `exception_values` table naming the standard Windows
exception codes, among them 0xC0000005 ACCESS_VIOLATION. -/
def exception_values : List (Nat × String) :=
  [(0x40000015, "FATAL_APP_EXIT"),
   (0x4000001E, "WX86_SINGLE_STEP"),
   (0x4000001F, "WX86_BREAKPOINT"),
   (0x40010005, "DBG_CONTROL_C"),
   (0x40010008, "DBG_CONTROL_BREAK"),
   (0x80000002, "DATATYPE_MISALIGNMENT"),
   (0x80000003, "BREAKPOINT"),
   (0x80000004, "SINGLE_STEP"),
   (0xC0000005, "ACCESS_VIOLATION"),
   (0xC0000006, "IN_PAGE_ERROR"),
   (0xC000001D, "ILLEGAL_INSTRUCTION"),
   (0xC0000025, "NONCONTINUABLE_EXCEPTION"),
   (0xC0000026, "INVALID_DISPOSITION"),
   (0xC000008C, "ARRAY_BOUNDS_EXCEEDED"),
   (0xC000008D, "FLOAT_DENORMAL_OPERAND"),
   (0xC000008E, "FLOAT_DIVIDE_BY_ZERO"),
   (0xC000008F, "FLOAT_INEXACT_RESULT"),
   (0xC0000090, "FLOAT_INVALID_OPERATION"),
   (0xC0000091, "FLOAT_OVERFLOW"),
   (0xC0000092, "FLOAT_STACK_CHECK"),
   (0xC0000093, "FLOAT_UNDERFLOW"),
   (0xC0000094, "INTEGER_DIVIDE_BY_ZERO"),
   (0xC0000095, "INTEGER_OVERFLOW"),
   (0xC0000096, "PRIV_INSTRUCTION"),
   (0xC00000FD, "STACK_OVERFLOW"),
   (0xC0000409, "FAST_FAIL")]

/-- The exact case constants of `windows_gdb_signal_from_target`'s
switch, as written in the source. -/
def windowsSignalCaseValues : List Nat :=
  [0, 0xC000005, 0xC0000FD, 0xC00008C, 0xC00008D, 0xC00008E, 0xC00008F,
   0xC000090, 0xC000091, 0xC000092, 0xC000093, 0xC000094, 0xC000095,
   0x8000003, 0x8000004, 0x4010005, 0x4010008, 0xC00001D, 0xC000096,
   0xC000025, 0x4000015]

/-- Claim C9: every target signal value whose unsigned form is not one of
the exact case constants maps to the unknown signal; in particular the
standard 8-hex-digit exception code 0xC0000005 (ACCESS_VIOLATION, listed
in the file's own `exception_values` table) maps to unknown, because the
case labels are 7-hex-digit constants — the 7-digit value 0xC000005 is
the one mapped to SIGSEGV. -/
theorem windows_gdb_signal_from_target_default (signal : Int)
    (h : (signal % 4294967296).toNat ∉ windowsSignalCaseValues) :
    windows_gdb_signal_from_target signal = .unknown
    ∧ windows_gdb_signal_from_target 0xC0000005 = .unknown
    ∧ (0xC0000005, "ACCESS_VIOLATION") ∈ exception_values
    ∧ windows_gdb_signal_from_target 0xC000005 = .sigsegv := by
  refine ⟨?_, by decide, by decide, by decide⟩
  simp only [windowsSignalCaseValues, List.mem_cons, List.not_mem_nil,
    or_false, not_or] at h
  obtain ⟨h1, h2, h3, h4, h5, h6, h7, h8, h9, h10, h11, h12, h13, h14,
    h15, h16, h17, h18, h19, h20, h21⟩ := h
  simp [windows_gdb_signal_from_target, h1, h2, h3, h4, h5, h6, h7, h8,
    h9, h10, h11, h12, h13, h14, h15, h16, h17, h18, h19, h20, h21]

/-- Closed instance of the default-case theorem at signal value 12345
(not a case constant): it maps to unknown, and so does 0xC0000005. -/
theorem windows_gdb_signal_from_target_default_witness :
    windows_gdb_signal_from_target 12345 = .unknown
    ∧ windows_gdb_signal_from_target 0xC0000005 = .unknown
    ∧ (0xC0000005, "ACCESS_VIOLATION") ∈ exception_values
    ∧ windows_gdb_signal_from_target 0xC000005 = .sigsegv :=
  windows_gdb_signal_from_target_default 12345 (by decide)

/-- Whether the 20-byte import directory entry at `off` is the all-zero
end-of-list marker (the `memcmp` against `null_dir_entry`). -/
def entryIsZero (c : List Nat) (off : Nat) : Bool :=
  (List.range 20).all (fun i => c.getD (off + i) 1 == 0)

/-- The `name_rva` field of the entry at `off` (bytes 12..15 of the
20-byte `pe_import_directory_entry`, PE files being little endian). -/
def entryNameRva (c : List Nat) (off : Nat) : Nat :=
  extract_unsigned_integer .little ((c.drop (off + 12)).take 4)

/-- `streq` of the C string at `noff` against the target name bytes (the
target contains no NUL): every target byte matches and a NUL terminator
follows. -/
def streqAt (c : List Nat) (noff : Nat) (target : List Nat) : Bool :=
  (List.range target.length).all
      (fun i => c.getD (noff + i) 0 == target.getD i 0)
    && c.getD (noff + target.length) 1 == 0

/-- The import-directory walk of `is_linked_with_cygwin_dll`, instrumented
with the list of section-byte indices it reads: the 20 entry bytes are
read only after the 20-byte space check, and the name bytes only after
the name-pointer range check and the overshoot check (a name whose
comparison would read past the section end is skipped, not dereferenced).
`fuel` bounds the recursion; callers supply more fuel than the section
can hold entries, and the walk always stops at the space check first. -/
def peImportWalk (c : List Nat) (sva : Nat) (target : List Nat) :
    Nat → Nat → Bool × List Nat
  | 0, _ => (false, [])
  | fuel + 1, off =>
    if off + 20 > c.length then (false, [])
    else
      let entryAcc := (List.range 20).map (fun i => off + i)
      if entryIsZero c off then (false, entryAcc)
      else
        let nva := entryNameRva c off
        if nva < sva ∨ nva ≥ sva + c.length then (false, entryAcc)
        else
          let noff := nva - sva
          if noff + target.length + 1 ≤ c.length then
            let nameAcc := (List.range (target.length + 1)).map
              (fun i => noff + i)
            if streqAt c noff target then (true, entryAcc ++ nameAcc)
            else
              let r := peImportWalk c sva target fuel (off + 20)
              (r.1, entryAcc ++ nameAcc ++ r.2)
          else
            let r := peImportWalk c sva target fuel (off + 20)
            (r.1, entryAcc ++ r.2)

/-- Generalized embedding of `is_linked_with_cygwin_dll` — the spec's
`imports_named_library` contract — with the searched DLL name a parameter
where the source fixes `CYGWIN_DLL_NAME`.  `idata` is the `.idata`
section's contents (`none` when the section is absent or unreadable);
`importTableVa` the import directory table's virtual address from the
data directory; `sectionVaRaw` the section's virtual address as reported
by BFD, from which the image base is removed (the source asserts the
difference is non-negative). -/
def imports_named_library (idata : Option (List Nat))
    (importTableVa sectionVaRaw imageBase : Nat) (target : List Nat) :
    Bool :=
  match idata with
  | none => false
  | some c =>
    let sva := sectionVaRaw - imageBase
    if importTableVa < sva ∨ importTableVa ≥ sva + c.length then false
    else (peImportWalk c sva target (c.length + 1) (importTableVa - sva)).1

/-- Byte list of `CYGWIN_DLL_NAME` ("cygwin1.dll"). -/
def cygwinDllName : List Nat :=
  [99, 121, 103, 119, 105, 110, 49, 46, 100, 108, 108]

/-- Byte list of "bar.dll". -/
def barDllName : List Nat := [98, 97, 114, 46, 100, 108, 108]

/-- The source's `is_linked_with_cygwin_dll`: the walk instantiated at
`CYGWIN_DLL_NAME`. -/
def is_linked_with_cygwin_dll (idata : Option (List Nat))
    (importTableVa sectionVaRaw imageBase : Nat) : Bool :=
  imports_named_library idata importTableVa sectionVaRaw imageBase
    cygwinDllName

/-- A hand-built 80-byte `.idata` section at (base-relative) virtual
address 0x1000: two import directory entries whose names point at
"foo.dll" (offset 60, rva 0x103C) and "cygwin1.dll" (offset 68, rva
0x1044), then the all-zero terminator, then the two NUL-terminated name
strings. -/
def c4Idata : List Nat :=
  [1, 0, 0, 0, 0, 0, 0, 0, 0, 0, 0, 0, 0x3C, 0x10, 0, 0, 0, 0, 0, 0,
   1, 0, 0, 0, 0, 0, 0, 0, 0, 0, 0, 0, 0x44, 0x10, 0, 0, 0, 0, 0, 0,
   0, 0, 0, 0, 0, 0, 0, 0, 0, 0, 0, 0, 0, 0, 0, 0, 0, 0, 0, 0,
   102, 111, 111, 46, 100, 108, 108, 0,
   99, 121, 103, 119, 105, 110, 49, 46, 100, 108, 108, 0]

/-- Claim C4: `imports_named_library` returns false when there is no
`.idata` section; returns false when the import table's computed virtual
address lies outside the section's range; and on the hand-built section
importing foo.dll and cygwin1.dll it returns true for the target
"cygwin1.dll" and false for the absent "bar.dll". -/
theorem imports_named_library_spec
    (importTableVa sectionVaRaw imageBase : Nat) (target : List Nat)
    (c : List Nat) :
    imports_named_library none importTableVa sectionVaRaw imageBase target
      = false
    ∧ ((importTableVa < sectionVaRaw - imageBase
        ∨ importTableVa ≥ sectionVaRaw - imageBase + c.length) →
       imports_named_library (some c) importTableVa sectionVaRaw imageBase
         target = false)
    ∧ imports_named_library (some c4Idata) 0x1000 0x401000 0x400000
        cygwinDllName = true
    ∧ imports_named_library (some c4Idata) 0x1000 0x401000 0x400000
        barDllName = false := by
  refine ⟨rfl, ?_, by decide, by decide⟩
  intro h
  simp [imports_named_library, h]

/-- Closed instance of the `imports_named_library` theorem: on the
hand-built section the cygwin1.dll lookup succeeds, the bar.dll lookup
fails, and a table virtual address beyond the section (0x2000) is
rejected. -/
theorem imports_named_library_spec_witness :
    imports_named_library (some c4Idata) 0x2000 0x401000 0x400000
      cygwinDllName = false
    ∧ imports_named_library (some c4Idata) 0x1000 0x401000 0x400000
      cygwinDllName = true :=
  ⟨(imports_named_library_spec 0x2000 0x401000 0x400000 cygwinDllName
      c4Idata).2.1 (by decide),
   (imports_named_library_spec 0x1000 0x401000 0x400000 cygwinDllName
      c4Idata).2.2.1⟩

/-- Claim C5: the import-directory walk never reads a byte outside the
`.idata` section's contents — every recorded access index is below the
section length, each bounds check preceding the corresponding read — and
a positive result arises only from an exact case-sensitive
null-terminated match: some in-bounds offset holds every byte of the
target name followed by a NUL terminator (not a substring match). -/
theorem peImportWalk_safety (c : List Nat) (sva : Nat) (target : List Nat) :
    ∀ fuel off,
      (∀ i ∈ (peImportWalk c sva target fuel off).2, i < c.length)
      ∧ ((peImportWalk c sva target fuel off).1 = true →
          ∃ noff, noff + target.length + 1 ≤ c.length
            ∧ (∀ j, j < target.length →
                c.getD (noff + j) 0 = target.getD j 0)
            ∧ c.getD (noff + target.length) 1 = 0) := by
  intro fuel
  induction fuel with
  | zero =>
    intro off
    constructor
    · intro i hi
      simp [peImportWalk] at hi
    · intro h
      simp [peImportWalk] at h
  | succ fuel ih =>
    intro off
    by_cases h20 : off + 20 > c.length
    · constructor
      · intro i hi
        simp [peImportWalk, h20] at hi
      · intro h
        simp [peImportWalk, h20] at h
    · have hent : ∀ i ∈ (List.range 20).map (fun j => off + j),
          i < c.length := by
        intro i hi
        simp only [List.mem_map, List.mem_range] at hi
        obtain ⟨j, hj, rfl⟩ := hi
        omega
      by_cases hz : entryIsZero c off = true
      · constructor
        · intro i hi
          simp only [peImportWalk, if_neg h20, hz, if_true] at hi
          exact hent i hi
        · intro h
          simp only [peImportWalk, if_neg h20, hz, if_true] at h
          simp at h
      · by_cases hr : entryNameRva c off < sva
            ∨ entryNameRva c off ≥ sva + c.length
        · constructor
          · intro i hi
            simp only [peImportWalk, if_neg h20, Bool.not_eq_true] at hi
            rw [if_neg (by simp [Bool.not_eq_true] at hz; simp [hz]),
              if_pos hr] at hi
            exact hent i hi
          · intro h
            simp only [peImportWalk, if_neg h20] at h
            rw [if_neg (by simp [Bool.not_eq_true] at hz; simp [hz]),
              if_pos hr] at h
            simp at h
        · by_cases hov : entryNameRva c off - sva + target.length + 1
              ≤ c.length
          · have hname : ∀ i ∈ (List.range (target.length + 1)).map
                (fun j => entryNameRva c off - sva + j), i < c.length := by
              intro i hi
              simp only [List.mem_map, List.mem_range] at hi
              obtain ⟨j, hj, rfl⟩ := hi
              omega
            by_cases hs : streqAt c (entryNameRva c off - sva) target = true
            · constructor
              · intro i hi
                simp only [peImportWalk, if_neg h20] at hi
                rw [if_neg (by simp [Bool.not_eq_true] at hz; simp [hz]),
                  if_neg hr, if_pos hov, if_pos hs] at hi
                rw [List.mem_append] at hi
                rcases hi with hi | hi
                · exact hent i hi
                · exact hname i hi
              · intro _
                simp only [streqAt, Bool.and_eq_true, List.all_eq_true,
                  List.mem_range, beq_iff_eq] at hs
                exact ⟨entryNameRva c off - sva, hov,
                  fun j hj => hs.1 j hj, hs.2⟩
            · have hrec := ih (off + 20)
              constructor
              · intro i hi
                simp only [peImportWalk, if_neg h20] at hi
                rw [if_neg (by simp [Bool.not_eq_true] at hz; simp [hz]),
                  if_neg hr, if_pos hov, if_neg hs] at hi
                rw [List.mem_append] at hi
                rcases hi with hi | hi
                · rw [List.mem_append] at hi
                  rcases hi with hi | hi
                  · exact hent i hi
                  · exact hname i hi
                · exact hrec.1 i hi
              · intro h
                simp only [peImportWalk, if_neg h20] at h
                rw [if_neg (by simp [Bool.not_eq_true] at hz; simp [hz]),
                  if_neg hr, if_pos hov, if_neg hs] at h
                exact hrec.2 h
          · have hrec := ih (off + 20)
            constructor
            · intro i hi
              simp only [peImportWalk, if_neg h20] at hi
              rw [if_neg (by simp [Bool.not_eq_true] at hz; simp [hz]),
                if_neg hr, if_neg hov] at hi
              rw [List.mem_append] at hi
              rcases hi with hi | hi
              · exact hent i hi
              · exact hrec.1 i hi
            · intro h
              simp only [peImportWalk, if_neg h20] at h
              rw [if_neg (by simp [Bool.not_eq_true] at hz; simp [hz]),
                if_neg hr, if_neg hov] at h
              exact hrec.2 h

/-- Closed instance of the walk-safety theorem on the hand-built section:
index 68 (the first byte of the matched cygwin1.dll name) is recorded as
accessed and lies inside the 80-byte section, and the positive result
comes with an exact null-terminated match. -/
theorem peImportWalk_safety_witness :
    (68 : Nat) < c4Idata.length
    ∧ ∃ noff, noff + cygwinDllName.length + 1 ≤ c4Idata.length
        ∧ (∀ j, j < cygwinDllName.length →
            c4Idata.getD (noff + j) 0 = cygwinDllName.getD j 0)
        ∧ c4Idata.getD (noff + cygwinDllName.length) 1 = 0 :=
  ⟨(peImportWalk_safety c4Idata 0x1000 cygwinDllName 81 0).1 68 (by decide),
   (peImportWalk_safety c4Idata 0x1000 cygwinDllName 81 0).2 (by decide)⟩
